import Mathlib

/-!
Shallow embedding of the ETL pipeline in `src/main.py`.

The program fetches a CSV resource over HTTP (`extract`), derives a per-key
row count with `pandas.groupby` and left-joins it back onto the source rows
while normalizing column labels (`transform` built on
`number_of_rows_per_key` and `clean_column`), persists the result to a SQLite
table (`load` via `DataFrame.to_sql` with `if_exists="replace"`), and finally
compares the persisted row count with the in-memory row count (`my_flow`).

Modelling decisions, each noted again at the definition it concerns:
* DataFrames are `Table`s: a list of column labels plus a list of rows of
  `Value`s.  The implicit pandas row index (a `RangeIndex` for every table
  this pipeline builds) is materialized only where the code makes it
  observable, namely in `to_sql`, which by pandas default (`index=True`)
  writes the index as an extra leading column.
* float64 cells only ever arise here from parsing decimal literals and are
  never computed with, so they are modelled exactly as canonical decimal
  numbers: an integer mantissa together with a decimal scale, trailing
  fractional zeros stripped (`Value.float`).
* Missing cells are `Value.null`, the embedding of pandas `NaN`:
  `groupby` drops null keys (pandas `dropna=True` default) and a left join
  never matches a null key and fills the added column of an unmatched row
  with null.
* The network and the SQLite engine are external collaborators: the
  response the network would give is passed to `extract` as an
  `Option Response` (`none` = unreachable, making `requests.get` raise),
  and the engine state is threaded through `to_sql`/`load`/`my_flow` as an
  explicit association list `DB` from table names to stored tables.
-/

namespace ETL

/-- A scalar cell of a DataFrame.  `int` embeds int64 cells, `float` embeds
float64 cells as exact canonical decimals (integer mantissa `m` and decimal
scale `e` standing for m / 10^e, with no trailing zero digits in the
fraction), `str` embeds object/string cells and `null` embeds `NaN`. -/
inductive Value where
  | int (i : Int)
  | float (m : Int) (e : Nat)
  | str (s : String)
  | null
deriving DecidableEq

/-- A pandas DataFrame as this pipeline uses one: an ordered list of column
labels and an ordered list of rows, each row holding one `Value` per column. -/
structure Table where
  columns : List String
  rows : List (List Value)
deriving DecidableEq

/-- The error taxonomy of the pipeline.  `networkError` embeds the exception
`requests.get` raises on an unreachable resource, `malformedInput` the
parser errors of `pandas.read_csv`, and `keyNotFound` the `KeyError` pandas
raises when `groupby`/`join` address an absent column. -/
inductive PipeError where
  | networkError
  | malformedInput
  | keyNotFound
deriving DecidableEq

/-- The aggregate produced by `number_of_rows_per_key`: a single-column
DataFrame indexed by the grouping key.  `entries` pairs each index value
with its count; `countCol` is the label given to the count column. -/
structure Lookup where
  countCol : String
  entries : List (Value × Nat)
deriving DecidableEq

/-- An HTTP response as `requests.get` returns one: a status code and a
body.  The body is text, per the CSV resource this pipeline fetches. -/
structure Response where
  status : Nat
  text : String
deriving DecidableEq

/-- `requests` considers a response a success below status 400
(`Response.ok` in the library). -/
def Response.success (r : Response) : Bool :=
  r.status < 400

/-- Splits a character list at every occurrence of `sep`, the structural
core of the comma/newline splitting `pandas.read_csv` performs. -/
def splitOnChar (sep : Char) : List Char → List (List Char)
  | [] => [[]]
  | c :: cs =>
    match splitOnChar sep cs with
    | [] => [[]]
    | h :: t => if c = sep then [] :: h :: t else (c :: h) :: t

/-- Value of an unsigned digit string. -/
def digitsToNat (l : List Char) : Nat :=
  l.foldl (fun a c => a * 10 + (c.toNat - 48)) 0

/-- Is `l` a non-empty string of decimal digits? -/
def isDigits (l : List Char) : Bool :=
  !l.isEmpty && l.all Char.isDigit

/-- Integer parsing as pandas type inference applies it to a CSV field: an
optional leading minus sign followed by decimal digits. -/
def parseIntStr (s : String) : Option Int :=
  match s.data with
  | '-' :: rest => if isDigits rest then some (-(digitsToNat rest : Int)) else none
  | l => if isDigits l then some ((digitsToNat l : Nat) : Int) else none

/-- Strips trailing `'0'` digits, canonicalizing a decimal fraction. -/
def stripTrailingZeros (l : List Char) : List Char :=
  (l.reverse.dropWhile (fun c => c = '0')).reverse

/-- Unsigned decimal-literal parsing: digits with an optional decimal point.
Returns the canonical mantissa and scale of the value. -/
def parseFloatAux (l : List Char) : Option (Nat × Nat) :=
  match splitOnChar '.' l with
  | [ip] => if isDigits ip then some (digitsToNat ip, 0) else none
  | [ip, fp] =>
    if (ip.all Char.isDigit && fp.all Char.isDigit) && !(ip.isEmpty && fp.isEmpty) then
      let fp2 := stripTrailingZeros fp
      some (digitsToNat (ip ++ fp2), fp2.length)
    else none
  | _ => none

/-- Float parsing as pandas type inference applies it to a CSV field
written in plain decimal notation: optional minus sign, digits, optional
decimal point.  Returns the canonical mantissa/scale pair of
`Value.float`. -/
def parseFloatStr (s : String) : Option (Int × Nat) :=
  match s.data with
  | '-' :: rest => (parseFloatAux rest).map (fun p => (-(p.1 : Int), p.2))
  | l => (parseFloatAux l).map (fun p => ((p.1 : Int), p.2))

/-- Per-column type inference of `pandas.read_csv`: a column in which every
field is an integer literal becomes int64; otherwise, if every field is a
decimal literal or empty, it becomes float64 with empty fields as `NaN`;
otherwise it stays a string column with empty fields as `NaN`. -/
def inferColumn (toks : List String) : List Value :=
  if toks.all (fun s => (parseIntStr s).isSome) then
    toks.map (fun s => Value.int ((parseIntStr s).getD 0))
  else if toks.all (fun s => s == "" || (parseFloatStr s).isSome) then
    toks.map (fun s =>
      match parseFloatStr s with
      | some p => Value.float p.1 p.2
      | none => Value.null)
  else
    toks.map (fun s => if s == "" then Value.null else Value.str s)

/-- `pandas.read_csv` on the body text, `sep=','`: the first non-blank line
is the header, every further non-blank line is a row, and column types are
inferred per column.  Empty input and rows wider than the header are parser
errors; narrower rows are padded with `NaN`. -/
def read_csv (text : String) : Except PipeError Table :=
  match (splitOnChar '\n' text.data).filter (fun l => !l.isEmpty) with
  | [] => .error .malformedInput
  | header :: dataLines =>
    let cols := (splitOnChar ',' header).map String.mk
    let cells := dataLines.map (fun l => (splitOnChar ',' l).map String.mk)
    if cells.any (fun r => cols.length < r.length) then .error .malformedInput
    else
      let colVals := (List.range cols.length).map
        (fun j => inferColumn (cells.map (fun r => r.getD j "")))
      .ok ⟨cols, (List.range dataLines.length).map
        (fun i => colVals.map (fun c => c.getD i Value.null))⟩

/-- `extract(url)` from `src/main.py`: `requests.get(url)` followed by
`pd.read_csv(io.StringIO(response.text), sep=',')`.  The network's answer
for the URL is the argument: `none` models an unreachable resource, on
which `requests.get` raises; on any response, successful or not, the body
is parsed — the code never inspects `response.status_code`. -/
def extract (resp : Option Response) : Except PipeError Table :=
  match resp with
  | none => .error .networkError
  | some r => read_csv r.text

/-- The key value of a row: the row's cell in column `key` of `t`
(the missing-cell default `null` is never reached on well-formed rows). -/
def rowKey (t : Table) (key : String) (r : List Value) : Value :=
  r.getD (List.indexOf key t.columns) Value.null

/-- The column of key values of `t`, i.e. `df[key]`. -/
def keyVals (t : Table) (key : String) : List Value :=
  t.rows.map (rowKey t key)

/-- `number_of_rows_per_key(df, key, column_name)` from `src/main.py`:
`df.groupby(key)[key].agg(['count'])` renamed to `column_name`.  Grouping
is by exact value equality; pandas `dropna=True` default drops rows whose
key is `NaN`, so only non-null key values form groups, and `count` on the
key column itself equals the group size.  A missing key column raises
`KeyError`. -/
def number_of_rows_per_key (df : Table) (key column_name : String) :
    Except PipeError Lookup :=
  if key ∈ df.columns then
    let nonNull := (keyVals df key).filter (fun v => v ≠ Value.null)
    .ok ⟨column_name, nonNull.dedup.map (fun v => (v, List.count v nonNull))⟩
  else .error .keyNotFound

/-- `df.join(lookup, on=key)` from `transform` in `src/main.py`: a left
join of the lookup's single column onto `df`.  Every row of `df` produces
one output row per matching lookup entry, or exactly one output row with
`NaN` in the added column when no entry matches; a null key never matches
(NaN ≠ NaN).  Joining on an absent column raises `KeyError`. -/
def join (df : Table) (lkp : Lookup) (key : String) : Except PipeError Table :=
  if key ∈ df.columns then
    .ok ⟨df.columns ++ [lkp.countCol],
      df.rows.flatMap (fun r =>
        let kv := rowKey df key r
        if kv = Value.null then [r ++ [Value.null]]
        else
          match lkp.entries.filter (fun p => p.1 = kv) with
          | [] => [r ++ [Value.null]]
          | ms => ms.map (fun p => r ++ [Value.int (p.2 : Int)]))⟩
  else .error .keyNotFound

/-- `clean_column(column_name)` from `src/main.py`:
`column_name.lower().replace(' ', '_')`.  The labels this pipeline
handles are ASCII, on which Python `str.lower` agrees with the
basic-latin `Char.toLower`. -/
def clean_column (column_name : String) : String :=
  String.mk ((column_name.data.map Char.toLower).map
    (fun c => if c = ' ' then '_' else c))

/-- `transform(df)` from `src/main.py`: build the per-key count lookup for
key `'user ID'` under the label `'number of meals'`, left-join it onto
`df`, then normalize every column label with `clean_column`. -/
def transform (df : Table) : Except PipeError Table := do
  let df_new_column ← number_of_rows_per_key df "user ID" "number of meals"
  let df2 ← join df df_new_column "user ID"
  return ⟨df2.columns.map clean_column, df2.rows⟩

/-- The state of the SQLite engine: the stored tables by name. -/
def DB : Type := List (String × Table)

/-- The relational image `DataFrame.to_sql` writes: by the pandas default
`index=True`, the frame's index (a `RangeIndex` for every table this
pipeline builds) becomes a leading `index` column before the frame's own
columns. -/
def persisted (t : Table) : Table :=
  ⟨"index" :: t.columns, t.rows.enum.map (fun p => Value.int (p.1 : Int) :: p.2)⟩

/-- `df.to_sql(table_name, con=engine, if_exists='replace')` from `load` in
`src/main.py`: any stored table named `table_name` is dropped and the
persisted image of `df` is written in its place. -/
def to_sql (df : Table) (db : DB) (table_name : String) : DB :=
  (table_name, persisted df) :: db.filter (fun p => p.1 ≠ table_name)

/-- Reading a stored table back from the engine by name. -/
def getTable (db : DB) (table_name : String) : Option Table :=
  (List.find? (fun p => p.1 = table_name) db).map Prod.snd

/-- `load(df, engine, table_name)` from `src/main.py`: write `df` with
`to_sql` (replace semantics), then run
`SELECT COUNT(*) FROM {table_name}` on the same engine and return that
count alongside the new engine state. -/
def load (df : Table) (db : DB) (table_name : String) : DB × Nat :=
  let db2 := to_sql df db table_name
  (db2, ((getTable db2 table_name).map (fun t => t.rows.length)).getD 0)

/-- `my_flow()` from `src/main.py`, parametrized by the network's answer
for the hard-coded URL and by the engine state (the source creates a fresh
in-memory engine, i.e. starts from the empty `DB`): extract, transform,
load under the name `'tutorial'`, and return whether the in-memory row
count equals the persisted row count.  An exception in any stage aborts
the run before the later stages touch the engine. -/
def my_flow (resp : Option Response) (db : DB) : DB × Except PipeError Bool :=
  match extract resp with
  | .error e => (db, .error e)
  | .ok data =>
    match transform data with
    | .error e => (db, .error e)
    | .ok data2 =>
      let r := load data2 db "tutorial"
      (r.1, .ok (data2.rows.length == r.2))

/-- The end-to-end example input: a CSV body with header `user ID,amount`
and rows (1,10.0), (1,5.0), (2,7.0). -/
def csvC1 : String := "user ID,amount\n1,10.0\n1,5.0\n2,7.0"

/-- The table `read_csv` produces from `csvC1`: `user ID` inferred as an
integer column, `amount` as a float column. -/
def tableC1 : Table :=
  ⟨["user ID", "amount"],
   [[.int 1, .float 10 0], [.int 1, .float 5 0], [.int 2, .float 7 0]]⟩

/-- The table `transform` produces from `tableC1`: per-key counts joined
on and labels normalized. -/
def transformedC1 : Table :=
  ⟨["user_id", "amount", "number_of_meals"],
   [[.int 1, .float 10 0, .int 2], [.int 1, .float 5 0, .int 2],
    [.int 2, .float 7 0, .int 1]]⟩

end ETL

namespace ETL

theorem char_toNat_ofNat_of_lt (n : Nat) (h : n < 55296) : (Char.ofNat n).toNat = n := by
  have hv : Char.isValidCharNat n := Or.inl h
  rw [Char.ofNat, dif_pos hv]
  simp [Char.ofNatAux, Char.toNat, UInt32.ofNat', UInt32.toNat]

theorem toLower_of_not_upper (c : Char) (h : ¬(65 ≤ c.toNat ∧ c.toNat ≤ 90)) :
    c.toLower = c := by
  rw [Char.toLower, if_neg]
  exact fun hc => h ⟨hc.1, hc.2⟩

theorem toLower_toNat_of_upper (c : Char) (h : 65 ≤ c.toNat ∧ c.toNat ≤ 90) :
    c.toLower.toNat = c.toNat + 32 := by
  rw [Char.toLower, if_pos ⟨h.1, h.2⟩]
  exact char_toNat_ofNat_of_lt _ (by omega)

theorem isUpper_iff (c : Char) : c.isUpper = true ↔ 65 ≤ c.toNat ∧ c.toNat ≤ 90 := by
  simp [Char.isUpper, Char.toNat, UInt32.le_def, BitVec.le_def, UInt32.toNat]

theorem isLower_iff (c : Char) : c.isLower = true ↔ 97 ≤ c.toNat ∧ c.toNat ≤ 122 := by
  simp [Char.isLower, Char.toNat, UInt32.le_def, BitVec.le_def, UInt32.toNat]

theorem toLower_toLower (c : Char) : c.toLower.toLower = c.toLower := by
  by_cases h : 65 ≤ c.toNat ∧ c.toNat ≤ 90
  · have h2 := toLower_toNat_of_upper c h
    exact toLower_of_not_upper _ (by omega)
  · rw [toLower_of_not_upper c h, toLower_of_not_upper c h]

theorem toNat_space : (' ' : Char).toNat = 32 := rfl

theorem toLower_space : (' ' : Char).toLower = ' ' :=
  toLower_of_not_upper _ (by simp [toNat_space])

theorem clean_column_data (t : String) :
    (clean_column t).data
      = t.data.map (fun c => if c.toLower = ' ' then '_' else c.toLower) := by
  show ((t.data.map Char.toLower).map fun c => if c = ' ' then '_' else c) = _
  rw [List.map_map]
  rfl

/-- C4: `clean_column` lowercases its argument (every uppercase basic-latin
letter moves to its lowercase counterpart, code point + 32) and replaces
every space with an underscore, alters no other character, and is
idempotent. -/
theorem clean_column_spec (s : String) :
    ((clean_column s).data.length = s.data.length ∧
     ∀ i, i < s.data.length →
       ((s.data.getD i ' ' = ' ' → (clean_column s).data.getD i ' ' = '_') ∧
        ((s.data.getD i ' ').isUpper = true →
          ((clean_column s).data.getD i ' ').toNat = (s.data.getD i ' ').toNat + 32 ∧
          ((clean_column s).data.getD i ' ').isLower = true) ∧
        (s.data.getD i ' ' ≠ ' ' → (s.data.getD i ' ').isUpper = false →
          (clean_column s).data.getD i ' ' = s.data.getD i ' '))) ∧
    clean_column (clean_column s) = clean_column s := by
  refine ⟨⟨?_, ?_⟩, ?_⟩
  · rw [clean_column_data, List.length_map]
  · intro i hi
    have hout : (clean_column s).data.getD i ' '
        = (if (s.data.getD i ' ').toLower = ' ' then '_' else (s.data.getD i ' ').toLower) := by
      rw [clean_column_data,
        List.getD_eq_getElem _ _ (by rw [List.length_map]; exact hi),
        List.getD_eq_getElem _ _ hi, List.getElem_map]
    refine ⟨?_, ?_, ?_⟩
    · intro hsp
      rw [hout, hsp, toLower_space, if_pos rfl]
    · intro hup
      have hub := (isUpper_iff _).mp hup
      have ht := toLower_toNat_of_upper _ hub
      have hne : (s.data.getD i ' ').toLower ≠ ' ' := by
        intro he
        rw [he, toNat_space] at ht
        omega
      rw [hout, if_neg hne]
      exact ⟨ht, (isLower_iff _).mpr (by omega)⟩
    · intro hns hnu
      have hnub : ¬(65 ≤ (s.data.getD i ' ').toNat ∧ (s.data.getD i ' ').toNat ≤ 90) := by
        intro hc
        rw [(isUpper_iff _).mpr hc] at hnu
        simp at hnu
      rw [hout, toLower_of_not_upper _ hnub, if_neg hns]
  · apply String.ext
    rw [clean_column_data, clean_column_data, List.map_map]
    apply List.map_congr_left
    intro c _
    show (if ((if c.toLower = ' ' then '_' else c.toLower)).toLower = ' ' then '_'
          else ((if c.toLower = ' ' then '_' else c.toLower)).toLower)
        = (if c.toLower = ' ' then '_' else c.toLower)
    by_cases hsp : c.toLower = ' '
    · rw [if_pos hsp]
      decide
    · rw [if_neg hsp, toLower_toLower, if_neg hsp]

/-- Witness for C4 at the label `"User ID"`: the space at position 4
becomes an underscore and the uppercase `U` at position 0 moves down by
32 code points. -/
theorem clean_column_spec_witness :
    (clean_column "User ID").data.getD 4 ' ' = '_' ∧
    ((clean_column "User ID").data.getD 0 ' ').toNat
      = ("User ID".data.getD 0 ' ').toNat + 32 :=
  ⟨((clean_column_spec "User ID").1.2 4 (by decide)).1 (by decide),
   (((clean_column_spec "User ID").1.2 0 (by decide)).2.1 (by decide)).1⟩

end ETL
namespace ETL

theorem filter_entries_of_mem (nonNull : List Value) (kv : Value) (hkv : kv ∈ nonNull) :
    ((nonNull.dedup.map (fun v => (v, List.count v nonNull))).filter
        (fun p => p.1 = kv))
      = [(kv, List.count kv nonNull)] := by
  rw [List.filter_map]
  have hcomp : ((fun p : Value × Nat => decide (p.1 = kv))
      ∘ (fun v => (v, List.count v nonNull))) = fun v => decide (v = kv) := rfl
  rw [hcomp, List.filter_eq,
    List.count_eq_one_of_mem (List.nodup_dedup _) (List.mem_dedup.mpr hkv)]
  rfl

theorem length_flatMap_of_forall_one {α β : Type} (l : List α) (f : α → List β)
    (hf : ∀ a ∈ l, (f a).length = 1) : (l.flatMap f).length = l.length := by
  induction l with
  | nil => rfl
  | cons x xs ih =>
    simp only [List.flatMap_cons, List.length_append, List.length_cons,
      hf x (List.mem_cons_self x xs)]
    rw [ih (fun a ha => hf a (List.mem_cons_of_mem _ ha))]
    omega

/-- C2: merging a table with the aggregate lookup built from that same
table and key preserves the row count: the left join neither drops rows
nor fans out. -/
theorem merge_preserves_row_count (t : Table) (key cn : String)
    (h : key ∈ t.columns) :
    (number_of_rows_per_key t key cn).bind
        (fun lkp => (join t lkp key).map (fun t2 => t2.rows.length))
      = Except.ok t.rows.length := by
  rw [number_of_rows_per_key, if_pos h]
  show (join t ⟨cn, ((keyVals t key).filter (fun v => v ≠ Value.null)).dedup.map
      (fun v => (v, List.count v ((keyVals t key).filter (fun v => v ≠ Value.null))))⟩ key).map
      (fun t2 => t2.rows.length) = Except.ok t.rows.length
  rw [join, if_pos h]
  refine congrArg Except.ok ?_
  refine length_flatMap_of_forall_one _ _ ?_
  intro r hr
  by_cases hkv : rowKey t key r = Value.null
  · simp [hkv]
  · have hmem : rowKey t key r ∈ (keyVals t key).filter (fun v => v ≠ Value.null) :=
      List.mem_filter.mpr ⟨List.mem_map_of_mem _ hr, by simp [hkv]⟩
    have hkvb : (rowKey t key r = Value.null) = False := eq_false hkv
    simp only [hkvb, if_false]
    rw [filter_entries_of_mem _ _ hmem]
    rfl

/-- C3 (amended): the aggregate lookup has one row per distinct non-null
key value, each count is the number of source rows sharing that key value,
and the counts sum to the number of source rows with a non-null key. -/
theorem aggregate_spec (t : Table) (key cn : String) (h : key ∈ t.columns) :
    ∃ lkp, number_of_rows_per_key t key cn = Except.ok lkp ∧
      lkp.countCol = cn ∧
      (lkp.entries.map Prod.fst).Nodup ∧
      (∀ v : Value, v ∈ lkp.entries.map Prod.fst ↔ v ≠ Value.null ∧ v ∈ keyVals t key) ∧
      (∀ p ∈ lkp.entries,
        p.2 = (t.rows.filter (fun r => rowKey t key r = p.1)).length) ∧
      (lkp.entries.map Prod.snd).sum
        = (t.rows.filter (fun r => rowKey t key r ≠ Value.null)).length := by
  have h1 : number_of_rows_per_key t key cn
      = .ok ⟨cn, ((keyVals t key).filter (fun v => v ≠ Value.null)).dedup.map
          (fun v => (v, List.count v ((keyVals t key).filter (fun v => v ≠ Value.null))))⟩ := by
    rw [number_of_rows_per_key, if_pos h]
  have hfst : (((keyVals t key).filter (fun v => v ≠ Value.null)).dedup.map
      (fun v => (v, List.count v ((keyVals t key).filter (fun v => v ≠ Value.null))))).map Prod.fst
      = ((keyVals t key).filter (fun v => v ≠ Value.null)).dedup := by
    rw [List.map_map]
    exact List.map_id _
  refine ⟨_, h1, rfl, ?_, ?_, ?_, ?_⟩
  · rw [hfst]
    exact List.nodup_dedup _
  · intro v
    rw [hfst, List.mem_dedup, List.mem_filter]
    simp [and_comm]
  · intro p hp
    obtain ⟨v, hv, rfl⟩ := List.mem_map.mp hp
    have hvmem : v ∈ (keyVals t key).filter (fun w => w ≠ Value.null) :=
      List.mem_dedup.mp hv
    have hvne : (v ≠ Value.null) := by
      have := (List.mem_filter.mp hvmem).2
      simpa using this
    show List.count v ((keyVals t key).filter (fun w => w ≠ Value.null)) = _
    rw [List.count_filter (by simpa using hvne)]
    have hcount : List.count v (keyVals t key)
        = List.countP (fun r => rowKey t key r == v) t.rows := by
      show List.countP (· == v) (t.rows.map (rowKey t key)) = _
      rw [List.countP_map]
      rfl
    rw [hcount, List.countP_eq_length_filter]
    apply congrArg
    apply List.filter_congr
    intro r _
    by_cases hx : rowKey t key r = v
    · simp [hx]
    · simp [hx]
  · have hsnd : (((keyVals t key).filter (fun v => v ≠ Value.null)).dedup.map
        (fun v => (v, List.count v ((keyVals t key).filter (fun v => v ≠ Value.null))))).map Prod.snd
        = ((keyVals t key).filter (fun v => v ≠ Value.null)).dedup.map
            (fun v => List.count v ((keyVals t key).filter (fun w => w ≠ Value.null))) := by
      rw [List.map_map]
      rfl
    rw [hsnd, List.sum_map_count_dedup_eq_length]
    show ((t.rows.map (rowKey t key)).filter (fun v => v ≠ Value.null)).length = _
    rw [List.filter_map, List.length_map]
    apply congrArg
    apply List.filter_congr
    intro r _
    rfl

theorem persisted_rows_length (t : Table) : (persisted t).rows.length = t.rows.length := by
  simp [persisted]

theorem getTable_to_sql (df : Table) (db : DB) (nm : String) :
    getTable (to_sql df db nm) nm = some (persisted df) := by
  rw [getTable, to_sql]
  rw [List.find?_cons_of_pos _ (by simp)]
  rfl

theorem load_state (df : Table) (db : DB) (nm : String) :
    (load df db nm).1 = to_sql df db nm := rfl

theorem load_snd (df : Table) (db : DB) (nm : String) :
    (load df db nm).2 = df.rows.length := by
  show (((getTable (to_sql df db nm) nm).map (fun t => t.rows.length)).getD 0) = _
  rw [getTable_to_sql]
  simp [persisted_rows_length]

end ETL
namespace ETL

theorem ok_bind {ε α β : Type} (a : α) (f : α → Except ε β) :
    ((Except.ok a : Except ε α) >>= f) = f a := rfl

theorem error_bind {ε α β : Type} (e : ε) (f : α → Except ε β) :
    ((Except.error e : Except ε α) >>= f) = Except.error e := rfl

theorem pure_eq_ok {ε α : Type} (a : α) : (pure a : Except ε α) = Except.ok a := rfl

theorem map_ok_eq {ε α β : Type} (f : α → β) (x : α) :
    Except.map f (Except.ok x : Except ε α) = Except.ok (f x) := rfl

/-- Witness for C2 at the end-to-end example table: aggregate-then-merge
keeps all 3 rows. -/
theorem merge_preserves_row_count_witness :
    (number_of_rows_per_key tableC1 "user ID" "number of meals").bind
        (fun lkp => (join tableC1 lkp "user ID").map (fun t2 => t2.rows.length))
      = Except.ok 3 :=
  merge_preserves_row_count tableC1 "user ID" "number of meals" (by decide)

/-- Witness for C3 (amended) at the end-to-end example table: the counts
of the lookup sum to the number of rows with a non-null key, namely 3. -/
theorem aggregate_spec_witness :
    (number_of_rows_per_key tableC1 "user ID" "number of meals").map
        (fun lkp => (lkp.entries.map Prod.snd).sum)
      = Except.ok 3 := by
  obtain ⟨lkp, h1, -, -, -, -, hsum⟩ :=
    aggregate_spec tableC1 "user ID" "number of meals" (by decide)
  rw [h1, map_ok_eq, hsum]
  rfl

/-- Counterexample to C3 as stated: on a table whose single row has a null
key value, the aggregate lookup is empty, so it has no row for the null
group and its counts sum to 0, not to the table's row count 1 — pandas
`groupby` drops null keys. -/
theorem aggregate_null_key_counterexample :
    number_of_rows_per_key ⟨["user ID"], [[Value.null]]⟩ "user ID" "number of meals"
      = Except.ok ⟨"number of meals", []⟩ ∧
    (((⟨"number of meals", []⟩ : Lookup)).entries.map Prod.snd).sum
      ≠ (⟨["user ID"], [[Value.null]]⟩ : Table).rows.length :=
  ⟨rfl, by decide⟩

/-- Counterexample to C5 as stated: joining against a lookup that lacks the
row's key value 5 does not fail — it succeeds and fills the added count
column with null. -/
theorem join_missing_key_counterexample :
    join ⟨["user ID"], [[Value.int 5]]⟩ ⟨"number of meals", []⟩ "user ID"
      = Except.ok ⟨["user ID", "number of meals"], [[Value.int 5, Value.null]]⟩ :=
  rfl

/-- C5 (amended): when the key column exists, `join` never fails; a row
whose key value has no entry in the lookup is kept, with a null in the
added count column (pandas left-join `NaN` fill), rather than raising. -/
theorem join_unmatched_yields_null (t : Table) (lkp : Lookup) (key : String)
    (h : key ∈ t.columns) :
    ∃ t2, join t lkp key = Except.ok t2 ∧
      ∀ r ∈ t.rows, rowKey t key r ∉ lkp.entries.map Prod.fst →
        r ++ [Value.null] ∈ t2.rows := by
  cases hj : join t lkp key with
  | error e =>
    rw [join, if_pos h] at hj
    exact Except.noConfusion hj
  | ok t2 =>
    refine ⟨t2, rfl, ?_⟩
    rw [join, if_pos h] at hj
    injection hj with hj
    intro r hr hnot
    have hm : r ++ [Value.null] ∈ t.rows.flatMap (fun r =>
        let kv := rowKey t key r
        if kv = Value.null then [r ++ [Value.null]]
        else
          match lkp.entries.filter (fun p => p.1 = kv) with
          | [] => [r ++ [Value.null]]
          | ms => ms.map (fun p => r ++ [Value.int (p.2 : Int)])) := by
      refine List.mem_flatMap.mpr ⟨r, hr, ?_⟩
      by_cases hkv : rowKey t key r = Value.null
      · simp [hkv]
      · have hfil : lkp.entries.filter (fun p => p.1 = rowKey t key r) = [] := by
          rw [List.filter_eq_nil_iff]
          intro p hp
          simp only [decide_eq_true_eq]
          intro he
          exact hnot (he ▸ List.mem_map_of_mem Prod.fst hp)
        simp [eq_false hkv, hfil]
    rw [← hj]
    exact hm

/-- Witness for C5 (amended): at the one-row table with key value 5 and an
empty lookup, the join output contains the row extended with null. -/
theorem join_unmatched_yields_null_witness :
    ((join ⟨["user ID"], [[Value.int 5]]⟩ ⟨"number of meals", []⟩ "user ID").map
        (fun t2 => [Value.int 5] ++ [Value.null] ∈ t2.rows))
      = Except.ok True := by
  obtain ⟨t2, hj, hmem⟩ := join_unmatched_yields_null ⟨["user ID"], [[Value.int 5]]⟩
    ⟨"number of meals", []⟩ "user ID" (by decide)
  rw [hj, map_ok_eq]
  exact congrArg Except.ok (eq_true (hmem [Value.int 5] (by decide) (by decide)))

/-- Counterexample to C6 as stated: on a 404 (non-success) response the
code does not fail with a network error — `extract` parses the body. -/
theorem extract_ignores_status_counterexample :
    (Response.mk 404 "user ID,amount\n1,10.0").success = false ∧
    extract (some (Response.mk 404 "user ID,amount\n1,10.0"))
      = Except.ok ⟨["user ID", "amount"], [[Value.int 1, Value.float 10 0]]⟩ :=
  ⟨rfl, rfl⟩

/-- C6 (amended): `extract` fails with the network error exactly when the
resource is unreachable; on any received response it parses the body as
CSV without ever inspecting the status code. -/
theorem extract_spec :
    extract none = Except.error PipeError.networkError ∧
    ∀ r : Response, extract (some r) = read_csv r.text :=
  ⟨rfl, fun _ => rfl⟩

/-- C7: on an input table without the `user ID` key column, aggregation
(and hence `transform`) fails with the key-not-found error and the flow
aborts with the engine state untouched — no sink write happens. -/
theorem missing_key_aborts (df : Table) (db : DB) (resp : Option Response)
    (h : "user ID" ∉ df.columns) (he : extract resp = Except.ok df) :
    transform df = Except.error PipeError.keyNotFound ∧
    my_flow resp db = (db, Except.error PipeError.keyNotFound) := by
  have ht : transform df = Except.error PipeError.keyNotFound := by
    simp [transform, number_of_rows_per_key, h, error_bind]
  exact ⟨ht, by simp [my_flow, he, ht]⟩

/-- Witness for C7: a one-column table `amount` has no `user ID` column,
so the run aborts with the key error and the empty engine state is kept. -/
theorem missing_key_aborts_witness :
    transform ⟨["amount"], [[Value.float 1 0]]⟩ = Except.error PipeError.keyNotFound ∧
    my_flow (some (Response.mk 200 "amount\n1.0")) []
      = ([], Except.error PipeError.keyNotFound) :=
  missing_key_aborts ⟨["amount"], [[Value.float 1 0]]⟩ []
    (some (Response.mk 200 "amount\n1.0")) (by decide) rfl

/-- C8: loading twice under the same name replaces — after the second load
the stored table is exactly the second table's persisted image, and the
reported row count is the second table's row count, not the sum of both
(whenever the first table was non-empty the sum is impossible). -/
theorem load_replace_not_append (db : DB) (t1 t2 : Table) (nm : String) :
    getTable ((load t2 ((load t1 db nm).1) nm).1) nm = some (persisted t2) ∧
    (load t2 ((load t1 db nm).1) nm).2 = t2.rows.length ∧
    (0 < t1.rows.length →
      (load t2 ((load t1 db nm).1) nm).2 ≠ t1.rows.length + t2.rows.length) := by
  refine ⟨?_, load_snd _ _ _, ?_⟩
  · rw [load_state, getTable_to_sql]
  · intro h1
    rw [load_snd]
    omega

/-- Witness for C8: loading the 3-row source table then the 3-row
transformed table leaves exactly the latter stored, count 3, not 6. -/
theorem load_replace_not_append_witness :
    getTable ((load transformedC1 ((load tableC1 [] "tutorial").1) "tutorial").1) "tutorial"
      = some (persisted transformedC1) ∧
    (load transformedC1 ((load tableC1 [] "tutorial").1) "tutorial").2 = 3 ∧
    (load transformedC1 ((load tableC1 [] "tutorial").1) "tutorial").2 ≠ 3 + 3 := by
  obtain ⟨a, b, c⟩ := load_replace_not_append [] tableC1 transformedC1 "tutorial"
  exact ⟨a, b, c (by decide)⟩

/-- Counterexample to C9 as stated: the persisted image of the transformed
example table carries a leading `index` column (pandas `to_sql` default
`index=True`) in addition to the normalized labels and the count column. -/
theorem load_index_column_counterexample :
    (getTable ((load transformedC1 [] "tutorial").1) "tutorial").map Table.columns
      = some ["index", "user_id", "amount", "number_of_meals"] ∧
    some ["index", "user_id", "amount", "number_of_meals"]
      ≠ some transformedC1.columns :=
  ⟨rfl, by decide⟩

theorem transform_ok_columns (df d : Table) (hd : transform df = Except.ok d) :
    d.columns = (df.columns ++ ["number of meals"]).map clean_column := by
  by_cases h : "user ID" ∈ df.columns
  · rw [transform, number_of_rows_per_key, if_pos h] at hd
    rw [ok_bind, join, if_pos h, ok_bind, pure_eq_ok] at hd
    injection hd with hd
    rw [← hd]
  · rw [transform, number_of_rows_per_key, if_neg h, error_bind] at hd
    exact Except.noConfusion hd

/-- C9 (amended): a successfully transformed table persists with columns
equal to the pandas index column followed by the normalized source labels
and the added count column. -/
theorem load_persists_index_column (df d : Table) (hd : transform df = Except.ok d)
    (db : DB) (nm : String) :
    getTable ((load d db nm).1) nm = some (persisted d) ∧
    (persisted d).columns
      = "index" :: (df.columns ++ ["number of meals"]).map clean_column := by
  refine ⟨by rw [load_state, getTable_to_sql], ?_⟩
  show "index" :: d.columns = _
  rw [transform_ok_columns df d hd]

/-- Witness for C9 (amended) at the end-to-end example. -/
theorem load_persists_index_column_witness :
    getTable ((load transformedC1 [] "tutorial").1) "tutorial"
      = some (persisted transformedC1) ∧
    (persisted transformedC1).columns
      = "index" :: (tableC1.columns ++ ["number of meals"]).map clean_column :=
  load_persists_index_column tableC1 transformedC1 rfl [] "tutorial"

/-- C10: the count `load` reads back always equals the in-memory row count,
so on every run in which extract and transform succeed the terminal
verification comparison is true — a completed run cannot report failure. -/
theorem verification_matches :
    (∀ (df : Table) (db : DB) (nm : String), (load df db nm).2 = df.rows.length) ∧
    (∀ (resp : Option Response) (db : DB) (data data2 : Table),
      extract resp = Except.ok data → transform data = Except.ok data2 →
      (my_flow resp db).2 = Except.ok true) := by
  refine ⟨load_snd, ?_⟩
  intro resp db data data2 hext htr
  simp [my_flow, hext, htr, load_snd]

/-- Witness for C10 at the end-to-end example run. -/
theorem verification_matches_witness :
    (my_flow (some (Response.mk 200 csvC1)) []).2 = Except.ok true :=
  verification_matches.2 (some (Response.mk 200 csvC1)) [] tableC1 transformedC1 rfl rfl

/-- C1: the end-to-end example — parsing the concrete CSV, transforming,
and loading yields the expected columns, rows, and persisted count 3 equal
to the in-memory count, so the run returns success. -/
theorem end_to_end_example :
    read_csv csvC1 = Except.ok tableC1 ∧
    transform tableC1 = Except.ok transformedC1 ∧
    transformedC1.columns = ["user_id", "amount", "number_of_meals"] ∧
    load transformedC1 [] "tutorial" = ([("tutorial", persisted transformedC1)], 3) ∧
    transformedC1.rows.length = 3 ∧
    my_flow (some (Response.mk 200 csvC1)) []
      = ([("tutorial", persisted transformedC1)], Except.ok true) :=
  ⟨rfl, rfl, rfl, rfl, rfl, rfl⟩

end ETL
